import Mathlib

/-!
Verification of the order-lifecycle engine of the `db` repository.

The development shallowly embeds the canonical route variant
(`src/unnamed/part_004`, mirrored in the first half of `src/api/index.js`):
the allowed-transition table, the `validateStatusTransition` helper, the
PATCH / PUT / cancel / delete handlers over an in-memory list standing for
the Mongo collection, the Joi `updateOrderSchema` validator
(`src/unnamed/part_001`), and the pagination computation of the list
endpoint.  JavaScript `undefined` is modelled as `Option.none`; a JS `Date`
timestamp is a `Nat` argument `now`; JS truthiness of a string is
"defined and nonempty", of a number "defined and nonzero".
-/

namespace Db

/-- The five-status enum of the canonical order schema
(`src/models/Order.js`, second schema; `src/api/index.js` line 100). -/
def STATUSES : List String :=
  ["pending", "processing", "shipped", "delivered", "cancelled"]

/-- The `ALLOWED_TRANSITIONS` object of `src/unnamed/part_004` lines 9-15.
A JS property lookup on a missing key yields `undefined`, modelled as
`none`. -/
def ALLOWED_TRANSITIONS_lookup (s : String) : Option (List String) :=
  if s = "pending" then some ["processing", "cancelled"]
  else if s = "processing" then some ["shipped", "cancelled"]
  else if s = "shipped" then some ["delivered", "cancelled"]
  else if s = "delivered" then some []
  else if s = "cancelled" then some []
  else none

/-- Result shape `{ valid, message? }` returned by
`validateStatusTransition`. -/
structure TransitionResult where
  valid : Bool
  message : Option String
deriving DecidableEq, Repr

/-- `validateStatusTransition` of `src/unnamed/part_004` lines 20-29:
`const allowed = ALLOWED_TRANSITIONS[currentStatus] || [];` then a
membership test on the requested status. -/
def validateStatusTransition (currentStatus newStatus : String) : TransitionResult :=
  let allowed := (ALLOWED_TRANSITIONS_lookup currentStatus).getD []
  if newStatus ∈ allowed then
    { valid := true, message := none }
  else
    { valid := false,
      message := some ("Cannot transition from " ++ currentStatus ++ " to " ++ newStatus) }

/-- The order document of the canonical schema
(`src/models/Order.js`, second schema).  `cancelledAt`,
`cancellationReason` and `notes` default to `null`/absent (`none`). -/
structure Order where
  orderId : String
  customerName : String
  phone : String
  product : String
  quantity : Int
  status : String
  cancelledAt : Option Nat
  cancellationReason : Option String
  notes : Option String
  isDeleted : Bool
deriving DecidableEq, Repr

/-- Body of a PATCH request as destructured at
`src/unnamed/part_004` line 163.  `none` is an absent (`undefined`)
field. -/
structure PatchBody where
  status : Option String
  customerName : Option String
  phone : Option String
  product : Option String
  quantity : Option Int
  notes : Option String
  cancellationReason : Option String
deriving DecidableEq, Repr

/-- Body of a PUT request as destructured at
`src/unnamed/part_004` line 291 (no `cancellationReason` field). -/
structure PutBody where
  customerName : Option String
  phone : Option String
  product : Option String
  quantity : Option Int
  status : Option String
  notes : Option String
deriving DecidableEq, Repr

/-- The error responses the handlers can produce before saving:
404 not-found, 400 invalid-id-format, the 400 invalid-transition payload
`{ currentStatus, attemptedStatus, allowedTransitions }` (the raw
`ALLOWED_TRANSITIONS[order.status]` lookup, hence an `Option`), the 400
already-cancelled payload `{ orderId, cancelledAt, cancellationReason }`,
and the 400 cannot-cancel-a-delivered-order response. -/
inductive ApiError where
  | notFound : ApiError
  | invalidId : ApiError
  | invalidTransition (currentStatus attemptedStatus : String)
      (allowedTransitions : Option (List String)) : ApiError
  | alreadyCancelled (orderId : String) (cancelledAt : Option Nat)
      (cancellationReason : Option String) : ApiError
  | terminalStateViolation : ApiError
deriving DecidableEq, Repr

/-- JS `String.prototype.trim`, modelled as dropping leading and trailing
whitespace characters (kept kernel-reducible so concrete runs evaluate). -/
def jsTrim (s : String) : String :=
  ⟨((s.data.dropWhile Char.isWhitespace).reverse.dropWhile Char.isWhitespace).reverse⟩

/-- Decidable equality of handler results, so concrete runs can be checked
by evaluation. -/
instance {e a : Type} [DecidableEq e] [DecidableEq a] : DecidableEq (Except e a) :=
  fun x y =>
    match x, y with
    | .ok u, .ok v =>
      if h : u = v then isTrue (by rw [h]) else isFalse (fun hc => by cases hc; exact h rfl)
    | .error u, .error v =>
      if h : u = v then isTrue (by rw [h]) else isFalse (fun hc => by cases hc; exact h rfl)
    | .ok _, .error _ => isFalse (fun hc => by cases hc)
    | .error _, .ok _ => isFalse (fun hc => by cases hc)

/-- JS `x?.trim() || d` applied to an optional string `v` already mapped
through `trim`: an absent or all-whitespace value falls back to `d`. -/
def orDefault (v : Option String) (d : String) : String :=
  match v with
  | some s => if s = "" then d else s
  | none => d

/-- JS `v?.trim() || prior` (PUT merge lines 329-331, 334): a supplied
string is trimmed and kept only if nonempty, otherwise the prior value
survives. -/
def trimOr (v : Option String) (prior : String) : String :=
  match v with
  | some s => if jsTrim s = "" then prior else jsTrim s
  | none => prior

/-- JS `quantity || order.quantity` (PUT merge line 332): `0` is falsy, so
it keeps the prior quantity. -/
def intOr (v : Option Int) (prior : Int) : Int :=
  match v with
  | some q => if q = 0 then prior else q
  | none => prior

/-- JS `notes?.trim() || order.notes` (PUT merge line 334) where the prior
value may itself be `null`. -/
def notesOr (v : Option String) (prior : Option String) : Option String :=
  match v with
  | some s => if jsTrim s = "" then prior else some (jsTrim s)
  | none => prior

/-- The status branch of the PATCH handler, `src/unnamed/part_004`
lines 177-199: validate the transition, on failure answer 400 with the
`{ currentStatus, attemptedStatus, allowedTransitions }` payload, on
success write the cancellation metadata (set on entering `cancelled`,
cleared otherwise) and the new status. -/
def applyPatchStatus (order : Order) (status : String)
    (cancellationReason : Option String) (now : Nat) : Except ApiError Order :=
  let t := validateStatusTransition order.status status
  if t.valid then
    let order :=
      if status = "cancelled" then
        { order with
          cancelledAt := some now,
          cancellationReason :=
            some (orDefault (cancellationReason.map jsTrim) "Cancelled by user") }
      else
        { order with cancelledAt := none, cancellationReason := none }
    .ok { order with status := status }
  else
    .error (.invalidTransition order.status status
      (ALLOWED_TRANSITIONS_lookup order.status))

/-- The field-update block of the PATCH handler, `src/unnamed/part_004`
lines 203-207: every field present in the body (`!== undefined`) is
assigned, trimmed for the string fields. -/
def applyPatchFields (order : Order) (body : PatchBody) : Order :=
  let order := match body.customerName with
    | some s => { order with customerName := jsTrim s }
    | none => order
  let order := match body.phone with
    | some s => { order with phone := jsTrim s }
    | none => order
  let order := match body.product with
    | some s => { order with product := jsTrim s }
    | none => order
  let order := match body.quantity with
    | some q => { order with quantity := q }
    | none => order
  let order := match body.notes with
    | some s => { order with notes := some (jsTrim s) }
    | none => order
  order

/-- PATCH `/orders/:orderId` on a loaded order, `src/unnamed/part_004`
lines 160-220: the status branch runs only when `status` is truthy
(defined and nonempty); an invalid transition returns before any
mutation. -/
def patchOrder (order : Order) (body : PatchBody) (now : Nat) :
    Except ApiError Order :=
  match body.status with
  | some s =>
    if s = "" then .ok (applyPatchFields order body)
    else
      match applyPatchStatus order s body.cancellationReason now with
      | .ok o => .ok (applyPatchFields o body)
      | .error e => .error e
  | none => .ok (applyPatchFields order body)

/-- PUT `/orders/:orderId` on a loaded order, `src/unnamed/part_004`
lines 288-347: the transition is validated only when `status` is truthy
and differs from the current status (line 304); on a legal change the
cancellation metadata is written (`"Cancelled during update"` on entering
`cancelled`, cleared otherwise); then the merge block (lines 329-334)
keeps the prior value of every field whose supplied value is absent or
falsy. -/
def putOrder (order : Order) (body : PutBody) (now : Nat) :
    Except ApiError Order :=
  let check : Except ApiError Order :=
    match body.status with
    | some s =>
      if s ≠ "" ∧ s ≠ order.status then
        let t := validateStatusTransition order.status s
        if t.valid then
          if s = "cancelled" then
            .ok { order with
              cancelledAt := some now,
              cancellationReason := some "Cancelled during update" }
          else
            .ok { order with cancelledAt := none, cancellationReason := none }
        else
          .error (.invalidTransition order.status s
            (ALLOWED_TRANSITIONS_lookup order.status))
      else .ok order
    | none => .ok order
  match check with
  | .error e => .error e
  | .ok o =>
    .ok { o with
      customerName := trimOr body.customerName o.customerName,
      phone := trimOr body.phone o.phone,
      product := trimOr body.product o.product,
      quantity := intOr body.quantity o.quantity,
      status := match body.status with
        | some s => if s = "" then o.status else s
        | none => o.status,
      notes := notesOr body.notes o.notes }

/-- POST `/orders/:orderId/cancel` on a loaded order,
`src/unnamed/part_004` lines 225-283: early guards for an already
cancelled order (echoing the stored cancellation metadata) and for a
delivered order, then unconditional cancellation with
`reason?.trim() || "Cancelled by customer"`. -/
def cancelOrder (order : Order) (reason : Option String) (now : Nat) :
    Except ApiError Order :=
  if order.status = "cancelled" then
    .error (.alreadyCancelled order.orderId order.cancelledAt order.cancellationReason)
  else if order.status = "delivered" then
    .error .terminalStateViolation
  else
    .ok { order with
      status := "cancelled",
      cancelledAt := some now,
      cancellationReason :=
        some (orDefault (reason.map jsTrim) "Cancelled by customer") }

/-- `Order.findOne({ orderId, isDeleted: false })`, the lookup every
single-order handler of `src/unnamed/part_004` performs. -/
def findActive (orders : List Order) (id : String) : Option Order :=
  orders.find? (fun o => o.orderId == id && o.isDeleted == false)

/-- JS `parseInt(q) || d`: an absent or unparsable query value (`none`,
standing for `NaN`) and a parsed `0` both fall back to the default. -/
def jsIntOr (q : Option Int) (d : Int) : Int :=
  match q with
  | some n => if n = 0 then d else n
  | none => d

/-- `Math.max(1, parseInt(req.query.page) || 1)`,
`src/unnamed/part_004` line 36. -/
def effectivePage (q : Option Int) : Int :=
  max 1 (jsIntOr q 1)

/-- `Math.min(100, Math.max(1, parseInt(req.query.limit) || 10))`,
`src/unnamed/part_004` line 37. -/
def effectiveLimit (q : Option Int) : Int :=
  min 100 (max 1 (jsIntOr q 10))

/-- The list filter of GET `/orders`, `src/unnamed/part_004` lines 42-45:
always `isDeleted: false`, plus the status filter when the query value is
truthy and one of the five enum values. -/
def listFilter (statusQ : Option String) (o : Order) : Bool :=
  o.isDeleted == false &&
    (match statusQ with
     | some s => if s ≠ "" ∧ s ∈ STATUSES then o.status == s else true
     | none => true)

/-- GET `/orders` result page, `src/unnamed/part_004` lines 34-56: filter,
skip `(page-1)*limit`, take `limit`.  The Mongo sort only permutes the
filtered collection and is orthogonal to the properties proved here, so
the store is taken in its ambient order. -/
def listEndpoint (orders : List Order) (statusQ : Option String)
    (pageQ limitQ : Option Int) : List Order :=
  let page := effectivePage pageQ
  let limit := effectiveLimit limitQ
  ((orders.filter (listFilter statusQ)).drop ((page - 1) * limit).toNat).take limit.toNat

/-- GET `/orders/:orderId`, `src/unnamed/part_004` lines 78-109: a 400 for
an id shorter than 3 characters, otherwise the `isDeleted: false` lookup
with a 404 on a miss. -/
def getOrderEndpoint (orders : List Order) (id : String) : Except ApiError Order :=
  if id = "" ∨ id.length < 3 then .error .invalidId
  else
    match findActive orders id with
    | some o => .ok o
    | none => .error .notFound

/-- PATCH `/orders/:orderId` at store level: 404 when the active lookup
misses, else the pure handler. -/
def patchEndpoint (orders : List Order) (id : String) (body : PatchBody)
    (now : Nat) : Except ApiError Order :=
  match findActive orders id with
  | some o => patchOrder o body now
  | none => .error .notFound

/-- PUT `/orders/:orderId` at store level: 404 when the active lookup
misses, else the pure handler. -/
def putEndpoint (orders : List Order) (id : String) (body : PutBody)
    (now : Nat) : Except ApiError Order :=
  match findActive orders id with
  | some o => putOrder o body now
  | none => .error .notFound

/-- POST `/orders/:orderId/cancel` at store level: 404 when the active
lookup misses, else the pure handler. -/
def cancelEndpoint (orders : List Order) (id : String)
    (reason : Option String) (now : Nat) : Except ApiError Order :=
  match findActive orders id with
  | some o => cancelOrder o reason now
  | none => .error .notFound

/-- DELETE `/orders/:orderId`, `src/unnamed/part_004` lines 352-381: 404
when the active lookup misses, else the soft-delete mutation. -/
def deleteEndpoint (orders : List Order) (id : String) : Except ApiError Order :=
  match findActive orders id with
  | some o => .ok { o with isDeleted := true }
  | none => .error .notFound

/-- Modelled from the spec: the canonical legal-transition table of
section 4.2 as an explicit list of pairs, used to compare the code's
`ALLOWED_TRANSITIONS` against the specification's words. -/
def canonicalTable : List (String × String) :=
  [("pending", "processing"), ("pending", "cancelled"),
   ("processing", "shipped"), ("processing", "cancelled"),
   ("shipped", "delivered"), ("shipped", "cancelled")]

/-- Modelled from the spec: the allowed-target set a status has in the
canonical table of section 4.2. -/
def canonicalTargets (c : String) : List String :=
  (canonicalTable.filter (fun p => p.1 == c)).map (fun p => p.2)

end Db

namespace Db

/-- Every enum status is a nonempty string, hence truthy in JS. -/
theorem statuses_nonempty : ∀ s ∈ STATUSES, s ≠ "" := by decide

/-- Over the five-status enum, `validateStatusTransition` accepts exactly
the pairs of the canonical table. -/
theorem valid_iff_canonical :
    ∀ c ∈ STATUSES, ∀ r ∈ STATUSES,
      ((validateStatusTransition c r).valid = true ↔ (c, r) ∈ canonicalTable) := by
  decide

/-- For every enum status the code's transition table stores exactly the
canonical allowed-target set. -/
theorem lookup_eq_canonicalTargets :
    ∀ c ∈ STATUSES, ALLOWED_TRANSITIONS_lookup c = some (canonicalTargets c) := by
  decide

/-- No status, enum or not, may transition to itself: no allowed set
contains its own key. -/
theorem validate_self_invalid (s : String) :
    (validateStatusTransition s s).valid = false := by
  by_cases h1 : s = "pending"
  · subst h1; decide
  by_cases h2 : s = "processing"
  · subst h2; decide
  by_cases h3 : s = "shipped"
  · subst h3; decide
  by_cases h4 : s = "delivered"
  · subst h4; decide
  by_cases h5 : s = "cancelled"
  · subst h5; decide
  simp [validateStatusTransition, ALLOWED_TRANSITIONS_lookup, h1, h2, h3, h4, h5]

/-- A status outside the enum has no entry in the transition table. -/
theorem lookup_outside_none (s : String) (h : s ∉ STATUSES) :
    ALLOWED_TRANSITIONS_lookup s = none := by
  simp only [STATUSES, List.mem_cons, List.not_mem_nil, or_false, not_or] at h
  obtain ⟨h1, h2, h3, h4, h5⟩ := h
  simp [ALLOWED_TRANSITIONS_lookup, h1, h2, h3, h4, h5]

/-- The PATCH field-update block never touches the identifier, the status,
the cancellation metadata or the soft-delete flag. -/
theorem applyPatchFields_frame (o : Order) (b : PatchBody) :
    (applyPatchFields o b).status = o.status ∧
    (applyPatchFields o b).cancelledAt = o.cancelledAt ∧
    (applyPatchFields o b).cancellationReason = o.cancellationReason ∧
    (applyPatchFields o b).orderId = o.orderId ∧
    (applyPatchFields o b).isDeleted = o.isDeleted := by
  unfold applyPatchFields
  cases b.customerName <;> cases b.phone <;> cases b.product <;>
    cases b.quantity <;> cases b.notes <;> exact ⟨rfl, rfl, rfl, rfl, rfl⟩

/-- A PATCH whose requested status is truthy and fails validation answers
with the invalid-transition payload built from the raw table lookup and
performs no mutation. -/
theorem patchOrder_invalid (o : Order) (body : PatchBody) (now : Nat) (r : String)
    (hr : body.status = some r) (hne : r ≠ "")
    (hv : (validateStatusTransition o.status r).valid = false) :
    patchOrder o body now =
      .error (.invalidTransition o.status r (ALLOWED_TRANSITIONS_lookup o.status)) := by
  unfold patchOrder
  rw [hr]
  simp only [hne, if_false, if_neg]
  unfold applyPatchStatus
  simp [hv]

/-- A PUT whose requested status is truthy, differs from the current one
and fails validation answers with the invalid-transition payload. -/
theorem putOrder_invalid (o : Order) (body : PutBody) (now : Nat) (r : String)
    (hr : body.status = some r) (hne : r ≠ "") (hdiff : r ≠ o.status)
    (hv : (validateStatusTransition o.status r).valid = false) :
    putOrder o body now =
      .error (.invalidTransition o.status r (ALLOWED_TRANSITIONS_lookup o.status)) := by
  unfold putOrder
  rw [hr]
  simp [hne, hdiff, hv]

end Db

namespace Db

/-- C1: the transition decision succeeds exactly on the canonical table.
Over the five-status enum `validateStatusTransition` is valid precisely on
the table pairs, the stored allowed set of every status is the canonical
target set, and a PATCH requesting an off-table pair fails with the
`InvalidTransition` payload carrying the current status and that full
allowed-target set. -/
theorem claim_C1 :
    (∀ c ∈ STATUSES, ∀ r ∈ STATUSES,
      ((validateStatusTransition c r).valid = true ↔ (c, r) ∈ canonicalTable)) ∧
    (∀ c ∈ STATUSES, ALLOWED_TRANSITIONS_lookup c = some (canonicalTargets c)) ∧
    (∀ (o : Order) (body : PatchBody) (now : Nat) (r : String),
      o.status ∈ STATUSES → r ∈ STATUSES → body.status = some r →
      (o.status, r) ∉ canonicalTable →
      patchOrder o body now =
        .error (.invalidTransition o.status r (some (canonicalTargets o.status)))) := by
  refine ⟨valid_iff_canonical, lookup_eq_canonicalTargets, ?_⟩
  intro o body now r ho hr hbody hmem
  have hne : r ≠ "" := statuses_nonempty r hr
  have hv : (validateStatusTransition o.status r).valid = false := by
    cases hb : (validateStatusTransition o.status r).valid
    · rfl
    · exact absurd ((valid_iff_canonical o.status ho r hr).mp hb) hmem
  have hp := patchOrder_invalid o body now r hbody hne hv
  rw [hp, lookup_eq_canonicalTargets o.status ho]

/-- C1 witness: a pending order PATCHed straight to `shipped` (an
off-table pair) fails with the payload naming `pending` and its canonical
targets. -/
theorem claim_C1_witness :
    patchOrder
      { orderId := "ORD-001", customerName := "Alice", phone := "1234567890",
        product := "Laptop", quantity := 1, status := "pending",
        cancelledAt := none, cancellationReason := none, notes := none,
        isDeleted := false }
      { status := some "shipped", customerName := none, phone := none,
        product := none, quantity := none, notes := none,
        cancellationReason := none } 0
      = .error (.invalidTransition "pending" "shipped"
          (some (canonicalTargets "pending"))) :=
  claim_C1.2.2 _ _ 0 "shipped" (by decide) (by decide) rfl (by decide)

/-- C2: an order in a terminal status (`delivered` or `cancelled`) rejects
every PATCH, PUT, or cancel attempt at a different status: PATCH and PUT
answer `InvalidTransition` whose allowed set is the empty list, the cancel
operation answers `AlreadyCancelled` or `TerminalStateViolation`, and each
failure returns before any mutation, so the stored status is unchanged. -/
theorem claim_C2 (o : Order)
    (hterm : o.status = "delivered" ∨ o.status = "cancelled") :
    ∀ r ∈ STATUSES, r ≠ o.status →
      (∀ (body : PatchBody) (now : Nat), body.status = some r →
        patchOrder o body now =
          .error (.invalidTransition o.status r (some []))) ∧
      (∀ (body : PutBody) (now : Nat), body.status = some r →
        putOrder o body now =
          .error (.invalidTransition o.status r (some []))) ∧
      (∀ (reason : Option String) (now : Nat),
        cancelOrder o reason now =
          .error (if o.status = "cancelled" then
              .alreadyCancelled o.orderId o.cancelledAt o.cancellationReason
            else .terminalStateViolation)) := by
  intro r hr hdiff
  have hlook : ALLOWED_TRANSITIONS_lookup o.status = some [] := by
    rcases hterm with h | h <;> rw [h] <;> decide
  have hv : (validateStatusTransition o.status r).valid = false := by
    simp [validateStatusTransition, hlook]
  refine ⟨?_, ?_, ?_⟩
  · intro body now hbody
    have hp := patchOrder_invalid o body now r hbody (statuses_nonempty r hr) hv
    rw [hp, hlook]
  · intro body now hbody
    have hp := putOrder_invalid o body now r hbody (statuses_nonempty r hr) hdiff hv
    rw [hp, hlook]
  · intro reason now
    rcases hterm with h | h <;> simp [cancelOrder, h]

/-- C2 witness: a delivered order PATCHed to `pending` fails with the
empty allowed set. -/
theorem claim_C2_witness :
    patchOrder
      { orderId := "ORD-002", customerName := "Bob", phone := "1234567890",
        product := "Phone", quantity := 2, status := "delivered",
        cancelledAt := none, cancellationReason := none, notes := none,
        isDeleted := false }
      { status := some "pending", customerName := none, phone := none,
        product := none, quantity := none, notes := none,
        cancellationReason := none } 3
      = .error (.invalidTransition "delivered" "pending" (some [])) :=
  ((claim_C2 _ (Or.inl rfl) "pending" (by decide) (by decide)).1 _ 3 rfl)

/-- C8: the list endpoint defaults to page 1 and limit 10, clamps the
effective limit into the interval from 1 to 100 (a requested 500 becomes
100), and clamps the effective page to at least 1 (a requested 0 becomes
1). -/
theorem claim_C8 (p l : Option Int) :
    effectivePage none = 1 ∧ effectiveLimit none = 10 ∧
    1 ≤ effectivePage p ∧
    1 ≤ effectiveLimit l ∧ effectiveLimit l ≤ 100 ∧
    effectivePage (some 0) = 1 ∧ effectiveLimit (some 500) = 100 :=
  ⟨by decide, by decide, le_max_left 1 _,
   le_min (by norm_num) (le_max_left 1 _), min_le_left _ _,
   by decide, by decide⟩

/-- C9: the transition decision is total over arbitrary status strings: a
current status outside the five-status enum has no table entry, so the
allowed set defaults to the empty list and every requested transition is
invalid — a corrupted status can never be transitioned anywhere. -/
theorem claim_C9 (current : String) (h : current ∉ STATUSES) :
    ALLOWED_TRANSITIONS_lookup current = none ∧
    ∀ newStatus : String,
      (validateStatusTransition current newStatus).valid = false := by
  refine ⟨lookup_outside_none current h, fun ns => ?_⟩
  simp [validateStatusTransition, lookup_outside_none current h]

/-- C9 witness: the corrupted status string `corrupted` has no table
entry and cannot transition to `shipped`. -/
theorem claim_C9_witness :
    ALLOWED_TRANSITIONS_lookup "corrupted" = none ∧
    (validateStatusTransition "corrupted" "shipped").valid = false :=
  ⟨(claim_C9 "corrupted" (by decide)).1,
   (claim_C9 "corrupted" (by decide)).2 "shipped"⟩

end Db

namespace Db

/-- A default sentinel falls through `orDefault` only when the supplied
value is nonempty, so the result is nonempty whenever the default is. -/
theorem orDefault_ne (v : Option String) (d : String) (hd : d ≠ "") :
    orDefault v d ≠ "" := by
  unfold orDefault
  cases v with
  | none => exact hd
  | some s => by_cases h : s = "" <;> simp [h, hd]

/-- A PATCH with no truthy requested status skips the transition branch
and only applies the field updates. -/
theorem patchOrder_noStatus (o : Order) (body : PatchBody) (now : Nat)
    (h : body.status = none ∨ body.status = some "") :
    patchOrder o body now = .ok (applyPatchFields o body) := by
  rcases h with h | h <;> simp [patchOrder, h]

/-- Closed form of a PATCH whose truthy requested status passes
validation: the cancellation metadata is written according to the target
status and the field updates are applied on top. -/
theorem patchOrder_valid (o : Order) (body : PatchBody) (now : Nat) (s : String)
    (hs : body.status = some s) (hne : s ≠ "")
    (hv : (validateStatusTransition o.status s).valid = true) :
    patchOrder o body now = .ok (applyPatchFields
      (if s = "cancelled" then
        { o with
          status := s,
          cancelledAt := some now,
          cancellationReason := some (orDefault
            (body.cancellationReason.map jsTrim) "Cancelled by user") }
      else { o with status := s, cancelledAt := none, cancellationReason := none })
      body) := by
  by_cases hc : s = "cancelled"
  · subst hc
    simp [patchOrder, hs, hne, applyPatchStatus, hv]
  · simp [patchOrder, hs, hne, applyPatchStatus, hv, hc]

/-- A PUT whose requested status is absent, empty, or equal to the current
status skips the transition branch entirely: only the merge block runs and
status and cancellation metadata are untouched. -/
theorem putOrder_keepStatus (o : Order) (body : PutBody) (now : Nat)
    (h : body.status = none ∨ body.status = some "" ∨ body.status = some o.status) :
    putOrder o body now = .ok { o with
      customerName := trimOr body.customerName o.customerName,
      phone := trimOr body.phone o.phone,
      product := trimOr body.product o.product,
      quantity := intOr body.quantity o.quantity,
      notes := notesOr body.notes o.notes } := by
  rcases h with h | h | h <;> simp [putOrder, h]

/-- Closed form of a PUT whose truthy requested status differs from the
current one and passes validation. -/
theorem putOrder_statusChange (o : Order) (body : PutBody) (now : Nat) (s : String)
    (hs : body.status = some s) (hne : s ≠ "") (hdiff : s ≠ o.status)
    (hv : (validateStatusTransition o.status s).valid = true) :
    putOrder o body now = .ok
      { orderId := o.orderId,
        customerName := trimOr body.customerName o.customerName,
        phone := trimOr body.phone o.phone,
        product := trimOr body.product o.product,
        quantity := intOr body.quantity o.quantity,
        status := s,
        cancelledAt := if s = "cancelled" then some now else none,
        cancellationReason :=
          if s = "cancelled" then some "Cancelled during update" else none,
        notes := notesOr body.notes o.notes,
        isDeleted := o.isDeleted } := by
  by_cases hc : s = "cancelled"
  · subst hc
    simp [putOrder, hs, hne, hdiff, hv]
  · simp [putOrder, hs, hne, hdiff, hv, hc]

end Db

namespace Db

/-- C3: every operation that moves an order into `cancelled` stamps
`cancelledAt` with the current time and a nonempty `cancellationReason`
(the supplied reason trimmed, or the entry point's default sentinel when
absent or whitespace); every operation that moves an order into a
non-cancelled status clears both fields to absent. -/
theorem claim_C3 (o : Order) (now : Nat) :
    (∀ (body : PatchBody) (o' : Order),
      patchOrder o body now = .ok o' → o'.status ≠ o.status →
      (o'.status = "cancelled" →
        o'.cancelledAt = some now ∧
        o'.cancellationReason = some (orDefault
          (body.cancellationReason.map jsTrim) "Cancelled by user") ∧
        orDefault (body.cancellationReason.map jsTrim) "Cancelled by user" ≠ "") ∧
      (o'.status ≠ "cancelled" →
        o'.cancelledAt = none ∧ o'.cancellationReason = none)) ∧
    (∀ (body : PutBody) (o' : Order),
      putOrder o body now = .ok o' → o'.status ≠ o.status →
      (o'.status = "cancelled" →
        o'.cancelledAt = some now ∧
        o'.cancellationReason = some "Cancelled during update") ∧
      (o'.status ≠ "cancelled" →
        o'.cancelledAt = none ∧ o'.cancellationReason = none)) ∧
    (∀ (reason : Option String) (o' : Order),
      cancelOrder o reason now = .ok o' →
      o'.status = "cancelled" ∧ o'.cancelledAt = some now ∧
      o'.cancellationReason = some (orDefault
        (reason.map jsTrim) "Cancelled by customer") ∧
      orDefault (reason.map jsTrim) "Cancelled by customer" ≠ "") := by
  refine ⟨?_, ?_, ?_⟩
  · intro body o' hok hchange
    cases hbs : body.status with
    | none =>
      rw [patchOrder_noStatus o body now (Or.inl hbs)] at hok
      injection hok with h
      exact absurd (h ▸ (applyPatchFields_frame o body).1) hchange
    | some s =>
      by_cases hse : s = ""
      · subst hse
        rw [patchOrder_noStatus o body now (Or.inr hbs)] at hok
        injection hok with h
        exact absurd (h ▸ (applyPatchFields_frame o body).1) hchange
      · cases hv : (validateStatusTransition o.status s).valid with
        | false =>
          rw [patchOrder_invalid o body now s hbs hse hv] at hok
          cases hok
        | true =>
          by_cases hc : s = "cancelled"
          · subst hc
            have hform := patchOrder_valid o body now "cancelled" hbs hse hv
            rw [if_pos rfl] at hform
            rw [hform] at hok
            injection hok with h
            subst h
            refine ⟨fun _ => ⟨?_, ?_, orDefault_ne _ _ (by decide)⟩,
              fun hns => absurd ?_ hns⟩
            · rw [(applyPatchFields_frame _ body).2.1]
            · rw [(applyPatchFields_frame _ body).2.2.1]
            · rw [(applyPatchFields_frame _ body).1]
          · have hform := patchOrder_valid o body now s hbs hse hv
            rw [if_neg hc] at hform
            rw [hform] at hok
            injection hok with h
            subst h
            refine ⟨fun hcanc => absurd ?_ hc, fun _ => ⟨?_, ?_⟩⟩
            · rw [(applyPatchFields_frame _ body).1] at hcanc
              exact hcanc
            · rw [(applyPatchFields_frame _ body).2.1]
            · rw [(applyPatchFields_frame _ body).2.2.1]
  · intro body o' hok hchange
    cases hbs : body.status with
    | none =>
      rw [putOrder_keepStatus o body now (Or.inl hbs)] at hok
      injection hok with h
      exact absurd (congrArg Order.status h.symm) hchange
    | some s =>
      by_cases hse : s = ""
      · subst hse
        rw [putOrder_keepStatus o body now (Or.inr (Or.inl hbs))] at hok
        injection hok with h
        exact absurd (congrArg Order.status h.symm) hchange
      · by_cases hdiff : s = o.status
        · subst hdiff
          rw [putOrder_keepStatus o body now (Or.inr (Or.inr hbs))] at hok
          injection hok with h
          exact absurd (congrArg Order.status h.symm) hchange
        · cases hv : (validateStatusTransition o.status s).valid with
          | false =>
            rw [putOrder_invalid o body now s hbs hse hdiff hv] at hok
            cases hok
          | true =>
            rw [putOrder_statusChange o body now s hbs hse hdiff hv] at hok
            injection hok with h
            subst h
            by_cases hc : s = "cancelled"
            · subst hc
              exact ⟨fun _ => ⟨by simp, by simp⟩, fun hns => absurd rfl hns⟩
            · exact ⟨fun hcanc => absurd hcanc hc,
                fun _ => ⟨by simp [hc], by simp [hc]⟩⟩
  · intro reason o' hok
    unfold cancelOrder at hok
    split_ifs at hok with h1 h2
    injection hok with h
    subst h
    exact ⟨rfl, rfl, rfl, orDefault_ne _ _ (by decide)⟩

/-- C3 witness: cancelling a pending order with no supplied reason stamps
the timestamp and the default sentinel reason. -/
theorem claim_C3_witness :
    (Order.status
      { orderId := "ORD-010", customerName := "Eve", phone := "1234567890",
        product := "Lamp", quantity := 1, status := "cancelled",
        cancelledAt := some 7, cancellationReason := some "Cancelled by customer",
        notes := none, isDeleted := false } = "cancelled") ∧
    (Order.cancelledAt
      { orderId := "ORD-010", customerName := "Eve", phone := "1234567890",
        product := "Lamp", quantity := 1, status := "cancelled",
        cancelledAt := some 7, cancellationReason := some "Cancelled by customer",
        notes := none, isDeleted := false } = some 7) ∧
    (Order.cancellationReason
      { orderId := "ORD-010", customerName := "Eve", phone := "1234567890",
        product := "Lamp", quantity := 1, status := "cancelled",
        cancelledAt := some 7, cancellationReason := some "Cancelled by customer",
        notes := none, isDeleted := false } =
      some (orDefault (Option.map jsTrim none) "Cancelled by customer")) ∧
    orDefault (Option.map jsTrim none) "Cancelled by customer" ≠ "" :=
  (claim_C3
    { orderId := "ORD-010", customerName := "Eve", phone := "1234567890",
      product := "Lamp", quantity := 1, status := "pending",
      cancelledAt := none, cancellationReason := none,
      notes := none, isDeleted := false } 7).2.2 none _ (by decide)

/-- C4: the dedicated cancel operation fails with `AlreadyCancelled` —
a constructor distinct from every `InvalidTransition` value — echoing the
stored cancellation metadata when the order is already cancelled, fails
with `TerminalStateViolation` when it is delivered, and succeeds (setting
the status to `cancelled`) from each of the three other statuses. -/
theorem claim_C4 (o : Order) (reason : Option String) (now : Nat) :
    (o.status = "cancelled" →
      cancelOrder o reason now =
        .error (.alreadyCancelled o.orderId o.cancelledAt o.cancellationReason) ∧
      ∀ c a al,
        ApiError.alreadyCancelled o.orderId o.cancelledAt o.cancellationReason ≠
          ApiError.invalidTransition c a al) ∧
    (o.status = "delivered" →
      cancelOrder o reason now = .error .terminalStateViolation) ∧
    (o.status = "pending" ∨ o.status = "processing" ∨ o.status = "shipped" →
      ∃ o', cancelOrder o reason now = .ok o' ∧ o'.status = "cancelled") := by
  refine ⟨?_, ?_, ?_⟩
  · intro h
    exact ⟨by simp [cancelOrder, h], fun c a al hcon => by cases hcon⟩
  · intro h
    simp [cancelOrder, h]
  · intro h
    have hnc : ¬o.status = "cancelled" := by rcases h with h | h | h <;> simp [h]
    have hnd : ¬o.status = "delivered" := by rcases h with h | h | h <;> simp [h]
    refine ⟨{ o with
      status := "cancelled",
      cancelledAt := some now,
      cancellationReason := some (orDefault (reason.map jsTrim)
        "Cancelled by customer") }, ?_, rfl⟩
    simp [cancelOrder, hnc, hnd]

/-- C4 witness: cancelling an already cancelled order echoes the stored
metadata in an `AlreadyCancelled` error. -/
theorem claim_C4_witness :
    cancelOrder
      { orderId := "ORD-011", customerName := "Finn", phone := "1234567890",
        product := "Mug", quantity := 3, status := "cancelled",
        cancelledAt := some 1, cancellationReason := some "Changed my mind",
        notes := none, isDeleted := false } (some "again") 5
      = .error (.alreadyCancelled "ORD-011" (some 1) (some "Changed my mind")) :=
  ((claim_C4 _ (some "again") 5).1 rfl).1

/-- C5 counterexample: the claim says a same-status update is a no-op
success, but a PATCH whose requested status equals the current one runs
the transition check against a table with no self-loops and fails with
`InvalidTransition`. -/
theorem claim_C5_cex :
    patchOrder
      { orderId := "ORD-012", customerName := "Gus", phone := "1234567890",
        product := "Desk", quantity := 1, status := "pending",
        cancelledAt := none, cancellationReason := none,
        notes := none, isDeleted := false }
      { status := some "pending", customerName := none, phone := none,
        product := none, quantity := none, notes := none,
        cancellationReason := none } 0
      = .error (.invalidTransition "pending" "pending"
          (some ["processing", "cancelled"])) := by
  decide

/-- C5 as amended: only the PUT handler treats a same-status request as an
idempotent no-op — it succeeds without touching the status or the
cancellation metadata — while the PATCH handler validates the pair against
the self-loop-free table and rejects a truthy same-status request with
`InvalidTransition`. -/
theorem claim_C5 (o : Order) (now : Nat) :
    (∀ body : PutBody, body.status = some o.status →
      ∃ o', putOrder o body now = .ok o' ∧ o'.status = o.status ∧
        o'.cancelledAt = o.cancelledAt ∧
        o'.cancellationReason = o.cancellationReason) ∧
    (∀ body : PatchBody, body.status = some o.status → o.status ≠ "" →
      patchOrder o body now =
        .error (.invalidTransition o.status o.status
          (ALLOWED_TRANSITIONS_lookup o.status))) := by
  constructor
  · intro body hbs
    exact ⟨_, putOrder_keepStatus o body now (Or.inr (Or.inr hbs)), rfl, rfl, rfl⟩
  · intro body hbs hne
    exact patchOrder_invalid o body now o.status hbs hne (validate_self_invalid o.status)

/-- C5 witness: a PUT resending the current `pending` status succeeds as a
no-op on status and cancellation metadata. -/
theorem claim_C5_witness :
    ∃ o', putOrder
      { orderId := "ORD-013", customerName := "Hal", phone := "1234567890",
        product := "Fan", quantity := 2, status := "pending",
        cancelledAt := none, cancellationReason := none,
        notes := none, isDeleted := false }
      { customerName := none, phone := none, product := none,
        quantity := none, status := some "pending", notes := none } 9
      = .ok o' ∧ o'.status = "pending" ∧ o'.cancelledAt = none ∧
      o'.cancellationReason = none :=
  (claim_C5 _ 9).1 _ rfl

/-- C10 counterexample: the claim says every field not named in the PUT
payload is unchanged, but a PUT naming only `status := cancelled` on a
pending order rewrites `cancelledAt` (from absent to the current time) and
`cancellationReason`, neither of which can even be named in a PUT body. -/
theorem claim_C10_cex :
    (putOrder
      { orderId := "ORD-014", customerName := "Ida", phone := "1234567890",
        product := "Rug", quantity := 1, status := "pending",
        cancelledAt := none, cancellationReason := none,
        notes := none, isDeleted := false }
      { customerName := none, phone := none, product := none,
        quantity := none, status := some "cancelled", notes := none }
      42).toOption.map Order.cancelledAt = some (some 42) := by
  decide

/-- C10 as amended: a successful PUT merges each payload-settable field by
keeping the prior value whenever the supplied value is absent or falsy
(empty or whitespace strings, quantity 0), never changes `orderId` or
`isDeleted`, and when no status is named also leaves the status and the
cancellation metadata untouched; the cancellation metadata is rewritten
exactly when a status change is requested. -/
theorem claim_C10 (o : Order) (body : PutBody) (now : Nat) (o' : Order)
    (hok : putOrder o body now = .ok o') :
    o'.customerName = trimOr body.customerName o.customerName ∧
    o'.phone = trimOr body.phone o.phone ∧
    o'.product = trimOr body.product o.product ∧
    o'.quantity = intOr body.quantity o.quantity ∧
    o'.notes = notesOr body.notes o.notes ∧
    o'.orderId = o.orderId ∧
    o'.isDeleted = o.isDeleted ∧
    (body.customerName = some "" → o'.customerName = o.customerName) ∧
    (body.quantity = some 0 → o'.quantity = o.quantity) ∧
    (body.status = none →
      o'.status = o.status ∧ o'.cancelledAt = o.cancelledAt ∧
      o'.cancellationReason = o.cancellationReason) := by
  have htrim : jsTrim "" = "" := by decide
  have hcn : body.customerName = some "" →
      trimOr body.customerName o.customerName = o.customerName := by
    intro h
    simp [trimOr, h, htrim]
  have hq : body.quantity = some 0 →
      intOr body.quantity o.quantity = o.quantity := by
    intro h
    simp [intOr, h]
  cases hbs : body.status with
  | none =>
    rw [putOrder_keepStatus o body now (Or.inl hbs)] at hok
    injection hok with h
    subst h
    exact ⟨rfl, rfl, rfl, rfl, rfl, rfl, rfl, fun h => hcn h,
      fun h => hq h, fun _ => ⟨rfl, rfl, rfl⟩⟩
  | some s =>
    by_cases hse : s = ""
    · subst hse
      rw [putOrder_keepStatus o body now (Or.inr (Or.inl hbs))] at hok
      injection hok with h
      subst h
      exact ⟨rfl, rfl, rfl, rfl, rfl, rfl, rfl, fun h => hcn h,
        fun h => hq h, fun h => Option.noConfusion h⟩
    · by_cases hdiff : s = o.status
      · subst hdiff
        rw [putOrder_keepStatus o body now (Or.inr (Or.inr hbs))] at hok
        injection hok with h
        subst h
        exact ⟨rfl, rfl, rfl, rfl, rfl, rfl, rfl, fun h => hcn h,
          fun h => hq h, fun h => Option.noConfusion h⟩
      · cases hv : (validateStatusTransition o.status s).valid with
        | false =>
          rw [putOrder_invalid o body now s hbs hse hdiff hv] at hok
          cases hok
        | true =>
          rw [putOrder_statusChange o body now s hbs hse hdiff hv] at hok
          injection hok with h
          subst h
          exact ⟨rfl, rfl, rfl, rfl, rfl, rfl, rfl, fun h => hcn h,
            fun h => hq h, fun h => Option.noConfusion h⟩

/-- C10 witness: a PUT supplying an empty customer name, quantity 0 and no
status leaves all three untouched. -/
theorem claim_C10_witness :
    (Order.customerName
      { orderId := "ORD-015", customerName := "Jan", phone := "1234567890",
        product := "Pot", quantity := 4, status := "shipped",
        cancelledAt := none, cancellationReason := none,
        notes := none, isDeleted := false } = trimOr (some "") "Jan") ∧
    (Order.quantity
      { orderId := "ORD-015", customerName := "Jan", phone := "1234567890",
        product := "Pot", quantity := 4, status := "shipped",
        cancelledAt := none, cancellationReason := none,
        notes := none, isDeleted := false } = intOr (some 0) 4) := by
  have h := claim_C10
    { orderId := "ORD-015", customerName := "Jan", phone := "1234567890",
      product := "Pot", quantity := 4, status := "shipped",
      cancelledAt := none, cancellationReason := none,
      notes := none, isDeleted := false }
    { customerName := some "", phone := none, product := none,
      quantity := some 0, status := none, notes := none } 3
    { orderId := "ORD-015", customerName := "Jan", phone := "1234567890",
      product := "Pot", quantity := 4, status := "shipped",
      cancelledAt := none, cancellationReason := none,
      notes := none, isDeleted := false } (by decide)
  exact ⟨h.1, h.2.2.2.1⟩

end Db

namespace Db

/-- C6: soft-deleted orders are invisible to every operation of the
canonical route file.  When every stored order carrying a given id is
soft-deleted, the active lookup misses; the single-order GET (for a
well-formed id), PATCH, PUT, cancel and delete endpoints all answer
NotFound; and no soft-deleted order ever appears in a list result. -/
theorem claim_C6 (orders : List Order) (id : String)
    (h : ∀ o ∈ orders, o.orderId = id → o.isDeleted = true) :
    findActive orders id = none ∧
    (3 ≤ id.length → getOrderEndpoint orders id = .error .notFound) ∧
    (∀ (body : PatchBody) (now : Nat),
      patchEndpoint orders id body now = .error .notFound) ∧
    (∀ (body : PutBody) (now : Nat),
      putEndpoint orders id body now = .error .notFound) ∧
    (∀ (reason : Option String) (now : Nat),
      cancelEndpoint orders id reason now = .error .notFound) ∧
    deleteEndpoint orders id = .error .notFound ∧
    (∀ (statusQ : Option String) (pageQ limitQ : Option Int),
      ∀ o ∈ listEndpoint orders statusQ pageQ limitQ, o.isDeleted = false) := by
  have hfind : findActive orders id = none := by
    apply List.find?_eq_none.mpr
    intro o ho hcon
    simp only [Bool.and_eq_true, beq_iff_eq] at hcon
    have := h o ho hcon.1
    rw [this] at hcon
    cases hcon.2
  refine ⟨hfind, ?_, ?_, ?_, ?_, ?_, ?_⟩
  · intro hlen
    have hnot : ¬(id = "" ∨ id.length < 3) := by
      rintro (h1 | h1)
      · subst h1
        simp at hlen
      · omega
    simp [getOrderEndpoint, hnot, hfind]
  · intro body now
    simp [patchEndpoint, hfind]
  · intro body now
    simp [putEndpoint, hfind]
  · intro reason now
    simp [cancelEndpoint, hfind]
  · simp [deleteEndpoint, hfind]
  · intro statusQ pageQ limitQ o ho
    have h1 : o ∈ (orders.filter (listFilter statusQ)).drop
        (((effectivePage pageQ) - 1) * (effectiveLimit limitQ)).toNat :=
      List.take_subset _ _ ho
    have h2 : o ∈ orders.filter (listFilter statusQ) :=
      List.drop_subset _ _ h1
    have h3 := (List.mem_filter.mp h2).2
    unfold listFilter at h3
    simp only [Bool.and_eq_true, beq_iff_eq] at h3
    exact h3.1

/-- C6 witness: a store holding only a soft-deleted order answers NotFound
to a GET for its id. -/
theorem claim_C6_witness :
    getOrderEndpoint
      [{ orderId := "ORD-016", customerName := "Kim", phone := "1234567890",
         product := "Cup", quantity := 1, status := "pending",
         cancelledAt := none, cancellationReason := none,
         notes := none, isDeleted := true }] "ORD-016" = .error .notFound :=
  (claim_C6
    [{ orderId := "ORD-016", customerName := "Kim", phone := "1234567890",
       product := "Cup", quantity := 1, status := "pending",
       cancelledAt := none, cancellationReason := none,
       notes := none, isDeleted := true }] "ORD-016"
    (by decide)).2.1 (by decide)

end Db

namespace Db

/-- A JSON value as far as the update schema distinguishes them. -/
inductive JsonValue where
  | str (s : String) : JsonValue
  | num (n : Int) : JsonValue
  | null : JsonValue
deriving DecidableEq, Repr

/-- A validation error as shaped by `validateUpdateOrder` in
`src/unnamed/part_001` lines 129-134: the dotted field path and a
human-readable message. -/
structure FieldError where
  field : String
  message : String
deriving DecidableEq, Repr

/-- The keys the `updateOrderSchema` of `src/unnamed/part_001`
lines 53-90 recognizes. -/
def UPDATE_FIELDS : List String :=
  ["status", "customerName", "phone", "product", "quantity", "notes",
   "cancellationReason"]

/-- The character class of the phone pattern of the schema: digits,
whitespace, dash, plus and parentheses. -/
def phoneChars (s : String) : Bool :=
  s.data.all (fun c =>
    c.isDigit || c = ' ' || c = '-' || c = '+' || c = '(' || c = ')')

/-- The per-field rules of `updateOrderSchema` (`src/unnamed/part_001`
lines 53-90), as the list of violation messages Joi reports for one
recognized key: `status` must be one of the five enum values;
`customerName` and `product` are trimmed strings of bounded length;
`phone` must match the pattern with at least 10 characters; `quantity` is
an integer between 1 and 1000; `notes` and `cancellationReason` are
bounded trimmed strings that also allow empty and null. -/
def checkUpdateMsgs (f : String) (v : JsonValue) : List String :=
  if f = "status" then
    match v with
    | .str s => if s ∈ STATUSES then [] else ["Invalid status value"]
    | _ => ["status must be a string"]
  else if f = "customerName" then
    match v with
    | .str s =>
      (if (jsTrim s).length < 2 then
        ["customerName length must be at least 2 characters long"] else []) ++
      (if 100 < (jsTrim s).length then
        ["customerName length must be less than or equal to 100 characters long"]
      else [])
    | _ => ["customerName must be a string"]
  else if f = "phone" then
    match v with
    | .str s =>
      (if phoneChars s ∧ s ≠ "" then [] else
        ["phone with value fails to match the required pattern"]) ++
      (if s.length < 10 then
        ["phone length must be at least 10 characters long"] else [])
    | _ => ["phone must be a string"]
  else if f = "product" then
    match v with
    | .str s =>
      (if (jsTrim s).length < 2 then
        ["product length must be at least 2 characters long"] else []) ++
      (if 200 < (jsTrim s).length then
        ["product length must be less than or equal to 200 characters long"]
      else [])
    | _ => ["product must be a string"]
  else if f = "quantity" then
    match v with
    | .num n =>
      (if n < 1 then ["quantity must be greater than or equal to 1"] else []) ++
      (if 1000 < n then ["quantity must be less than or equal to 1000"] else [])
    | _ => ["quantity must be a number"]
  else if f = "notes" then
    match v with
    | .str s =>
      if 1000 < (jsTrim s).length then
        ["notes length must be less than or equal to 1000 characters long"]
      else []
    | .null => []
    | _ => ["notes must be a string"]
  else if f = "cancellationReason" then
    match v with
    | .str s =>
      if 500 < (jsTrim s).length then
        ["cancellationReason length must be less than or equal to 500 characters long"]
      else []
    | .null => []
    | _ => ["cancellationReason must be a string"]
  else []

/-- The field errors of one recognized key: every violation message paired
with the dotted path of the key it concerns. -/
def checkUpdateField (f : String) (v : JsonValue) : List FieldError :=
  (checkUpdateMsgs f v).map (fun m => { field := f, message := m })

/-- The `stripUnknown: true` option of the validator calls
(`src/unnamed/part_001` line 126): unrecognized keys are dropped, not
rejected. -/
def recognizedFields (payload : List (String × JsonValue)) :
    List (String × JsonValue) :=
  payload.filter (fun p => UPDATE_FIELDS.contains p.1)

/-- The `abortEarly: false` option (`src/unnamed/part_001` line 125): the
errors of every recognized key are collected before returning. -/
def updateFieldErrors (payload : List (String × JsonValue)) : List FieldError :=
  (recognizedFields payload).flatMap (fun p => checkUpdateField p.1 p.2)

/-- The `object.min` message of the schema (`src/unnamed/part_001`
lines 88-90), reported with the empty object-level path. -/
def EMPTY_UPDATE_ERROR : FieldError :=
  { field := "", message := "At least one field must be provided for update" }

/-- Joi conversion on success: the trimmed fields come back trimmed. -/
def convertValue (f : String) (v : JsonValue) : JsonValue :=
  match v with
  | .str s =>
    if f = "customerName" ∨ f = "product" ∨ f = "notes" ∨
        f = "cancellationReason" then .str (jsTrim s) else .str s
  | v => v

/-- `updateOrderSchema.validate(body, { abortEarly: false, stripUnknown:
true })` together with the `.min(1)` object rule: unknown keys are
stripped, an update with no recognized key at all is rejected with the
empty-update error, otherwise all field errors are collected, and on
success the converted recognized keys are returned. -/
def validateUpdateOrder (payload : List (String × JsonValue)) :
    Except (List FieldError) (List (String × JsonValue)) :=
  if recognizedFields payload = [] then
    .error [EMPTY_UPDATE_ERROR]
  else if updateFieldErrors payload = [] then
    .ok ((recognizedFields payload).map (fun p => (p.1, convertValue p.1 p.2)))
  else
    .error (updateFieldErrors payload)

end Db

namespace Db

set_option maxHeartbeats 1000000 in
/-- Every violation message of the update schema is a nonempty
human-readable string. -/
theorem checkUpdateMsgs_ne (f : String) (v : JsonValue) :
    ∀ m ∈ checkUpdateMsgs f v, m ≠ "" := by
  intro m hm hcon
  subst hcon
  unfold checkUpdateMsgs at hm
  cases v <;> split_ifs at hm <;> simp at hm

/-- Every field error of one recognized key carries that key as its path
and a nonempty message. -/
theorem checkUpdateField_mem (f : String) (v : JsonValue) (e : FieldError)
    (he : e ∈ checkUpdateField f v) : e.field = f ∧ e.message ≠ "" := by
  unfold checkUpdateField at he
  obtain ⟨m, hm, rfl⟩ := List.mem_map.mp he
  exact ⟨rfl, checkUpdateMsgs_ne f v m hm⟩

/-- Stripping unknown keys is idempotent. -/
theorem recognizedFields_idem (payload : List (String × JsonValue)) :
    recognizedFields (recognizedFields payload) = recognizedFields payload := by
  unfold recognizedFields
  rw [List.filter_filter]
  simp [Bool.and_self]

/-- C7: update-payload validation collects every field error of every
recognized key before returning, each error carrying the key's path and a
nonempty human-readable message; unrecognized keys are silently dropped
(validation of a payload equals validation of its recognized keys, and a
successful result contains recognized keys only); and a payload with no
recognized key at all is rejected with the empty-update error. -/
theorem claim_C7 (payload : List (String × JsonValue)) :
    (∀ f v e, (f, v) ∈ payload → UPDATE_FIELDS.contains f = true →
      e ∈ checkUpdateField f v →
      ∃ errs, validateUpdateOrder payload = .error errs ∧ e ∈ errs ∧
        e.field = f ∧ e.message ≠ "") ∧
    (∀ errs, validateUpdateOrder payload = .error errs →
      ∀ e ∈ errs, e.message ≠ "") ∧
    (∀ value, validateUpdateOrder payload = .ok value →
      ∀ f v, (f, v) ∈ value → UPDATE_FIELDS.contains f = true) ∧
    (validateUpdateOrder payload = validateUpdateOrder (recognizedFields payload)) ∧
    (recognizedFields payload = [] →
      validateUpdateOrder payload = .error [EMPTY_UPDATE_ERROR]) := by
  refine ⟨?_, ?_, ?_, ?_, ?_⟩
  · intro f v e hp hf he
    have hrec : (f, v) ∈ recognizedFields payload :=
      List.mem_filter.mpr ⟨hp, hf⟩
    have herr : e ∈ updateFieldErrors payload := by
      unfold updateFieldErrors
      exact List.mem_flatMap.mpr ⟨(f, v), hrec, he⟩
    have hne1 : recognizedFields payload ≠ [] := List.ne_nil_of_mem hrec
    have hne2 : updateFieldErrors payload ≠ [] := List.ne_nil_of_mem herr
    obtain ⟨hfield, hmsg⟩ := checkUpdateField_mem f v e he
    refine ⟨updateFieldErrors payload, ?_, herr, hfield, hmsg⟩
    unfold validateUpdateOrder
    rw [if_neg hne1, if_neg hne2]
  · intro errs hv e he hcon
    unfold validateUpdateOrder at hv
    split_ifs at hv with h1 h2
    · injection hv with h
      subst h
      simp only [List.mem_singleton] at he
      subst he
      exact absurd hcon (by decide)
    · injection hv with h
      subst h
      obtain ⟨p, hp, hechk⟩ := List.mem_flatMap.mp he
      exact absurd hcon (checkUpdateField_mem p.1 p.2 e hechk).2
  · intro value hv f v hmem
    unfold validateUpdateOrder at hv
    split_ifs at hv with h1 h2
    injection hv with h
    subst h
    obtain ⟨p, hp, heq⟩ := List.mem_map.mp hmem
    have hf : p.1 = f := congrArg Prod.fst heq
    have hpmem := (List.mem_filter.mp hp).2
    rw [← hf]
    exact hpmem
  · simp only [validateUpdateOrder, updateFieldErrors, recognizedFields_idem]
  · intro h
    unfold validateUpdateOrder
    rw [if_pos h]

/-- C7 witness: a payload with a too-short customer name, a too-short
phone and an unrecognized key yields an error list containing the phone
error (alongside the customer-name error), with the field path and a
nonempty message. -/
theorem claim_C7_witness :
    ∃ errs, validateUpdateOrder
      [("customerName", .str "A"), ("phone", .str "123"), ("bogus", .num 7)]
      = .error errs ∧
      ({ field := "phone",
         message := "phone length must be at least 10 characters long" } :
        FieldError) ∈ errs ∧
      ({ field := "phone",
         message := "phone length must be at least 10 characters long" } :
        FieldError).field = "phone" ∧
      ({ field := "phone",
         message := "phone length must be at least 10 characters long" } :
        FieldError).message ≠ "" :=
  (claim_C7 _).1 "phone" (.str "123") _ (by decide) (by decide) (by decide)

end Db
